import Mathlib

/-!
Shallow embedding of the daemonization core (`libs/daemon.py`).

The process state manipulated by `daemonize` is modelled explicitly: the
open-file-descriptor table, the file-creation mask, the working directory,
the hangup-signal disposition, session leadership, and the hard limit on
open descriptors.  Fallible OS calls are driven by a fault-injection
environment `Env`; successful and failing behaviours of each call site are
translated directly from the Python source.  A trace of the top-level OS
calls issued is recorded so ordering properties can be stated.
-/

namespace Daemon

/-- One entry of the file-descriptor table: the backing device and whether
it is terminal-backed (`os.ttyname` succeeds exactly on these). -/
structure FdEntry where
  device : String
  isTerminal : Bool
deriving DecidableEq

/-- Process-level state touched by the daemonization procedure. -/
structure ProcState where
  osName : String
  fds : List (Option FdEntry)
  umask : Nat
  cwd : String
  sighupIgnored : Bool
  sessionLeader : Bool
  rlimitNofileHard : Option Nat
deriving DecidableEq

/-- Top-level OS calls issued by `daemonize`, recorded in order. -/
inductive Step where
  | forkCall
  | setsidCall
  | sigignCall
  | umaskCall
  | chdirCall
  | redirectCall
deriving DecidableEq

/-- The world: process state plus the call trace and logging counters
(`log.warning` / `logging.info` emissions are counted, not stored). -/
structure World where
  st : ProcState
  trace : List Step
  warnCount : Nat
  infoCount : Nat
  ttynameCalls : Nat
deriving DecidableEq

/-- Python exceptions relevant to the source: `OSError` (errno, strerror),
the modules own `DaemonError` (message), and any other exception carrying
its `repr`. -/
inductive PyExc where
  | osError (errno : Nat) (strerror : String)
  | daemonError (msg : String)
  | otherExc (reprText : String)
deriving DecidableEq

/-- Behaviour of one `os.fork()` call site: either it raises `OSError`
(errno, strerror), or it returns a pid (`0` means execution continues in
the child). -/
inductive ForkSpec where
  | fails (errno : Nat) (strerror : String)
  | returns (pid : Nat)
deriving DecidableEq

/-- Fault-injection environment: for each fallible call site, which
exception (if any) the OS raises there.  `closeErr fd` is the exception
`os.close fd` raises inside the per-descriptor loop. -/
structure Env where
  fork1 : ForkSpec
  fork2 : ForkSpec
  setsidErr : Option PyExc
  signalErr : Option PyExc
  umaskErr : Option PyExc
  chdirErr : Option PyExc
  openNullErr : Option PyExc
  closeErr : Nat → Option PyExc

/-- Outcome of running `daemonize` in one process: a normal return, a
process exit (`os._exit(code)`; `ranAtexit = false` records that atexit
hooks are skipped), or a raised exception. -/
inductive DResult where
  | returned (w : World)
  | exited (code : Nat) (ranAtexit : Bool) (w : World)
  | raised (e : PyExc) (w : World)
deriving DecidableEq

/-- Constant `UMASK = 0o077` from the source. -/
def UMASK : Nat := 0o077

/-- Constant `WORKDIR` from the source: the filesystem root. -/
def WORKDIR : String := "/"

/-- Constant `MAXFD = 1024` from the source. -/
def MAXFD : Nat := 1024

/-- Constant `NULL_DEVICE` from the source (`os.devnull` on POSIX). -/
def NULL_DEVICE : String := "/dev/null"

/-- A single-quote character, used when rendering Python `repr` strings. -/
def sq : String := String.singleton (Char.ofNat 39)

/-- Python `repr` of a plain string (quoting only; escapes are not
modelled since no message produced by the source needs them). -/
def pyReprStr (s : String) : String := sq ++ s ++ sq

/-- Python `repr` of the modelled exceptions. -/
def pyRepr : PyExc → String
  | .osError errno strerror =>
      "OSError(" ++ toString errno ++ ", " ++ pyReprStr strerror ++ ")"
  | .daemonError msg => "DaemonError(" ++ pyReprStr msg ++ ")"
  | .otherExc reprText => reprText

/-- The top-level wrap in `daemonize`:
the handler formats the Error-during-daemonizing prefix followed by the
Python `repr` of the caught exception. -/
def wrapTop (e : PyExc) : PyExc :=
  .daemonError ("Error during daemonizing: " ++ pyRepr e)

/-- The message `_fork` builds from a caught `OSError`:
`"Cannot fork: %s [%d]" % (e.strerror, e.errno)`. -/
def forkMsg (errno : Nat) (strerror : String) : String :=
  "Cannot fork: " ++ strerror ++ " [" ++ toString errno ++ "]"

/-- Look up descriptor `i` in a table (absent indices are closed). -/
def fdAt (t : List (Option FdEntry)) (i : Nat) : Option FdEntry :=
  t.getD i none

/-- Write entry `e` at descriptor `i`, growing the table with closed
slots as needed. -/
def setFd (t : List (Option FdEntry)) (i : Nat) (e : Option FdEntry) :
    List (Option FdEntry) :=
  (t ++ List.replicate (i + 1 - t.length) none).set i e

/-- Whether `os.ttyname i` succeeds: descriptor open and terminal-backed. -/
def ttynameOk (t : List (Option FdEntry)) (i : Nat) : Bool :=
  match fdAt t i with
  | some e => e.isTerminal
  | none => false

/-- The entry created by `os.open(NULL_DEVICE, os.O_RDWR)`. -/
def nullEntry : FdEntry := { device := NULL_DEVICE, isTerminal := false }

/-- Lowest free descriptor number: `os.open` is guaranteed to return it. -/
def lowestFree (t : List (Option FdEntry)) : Nat :=
  ((List.range (t.length + 1)).find? (fun i => (fdAt t i).isNone)).getD t.length

/-- Model of `os.fork()`: records the call; on success in the child (`pid = 0`) the
new process is not a session leader. -/
def os_fork (spec : ForkSpec) (w : World) : (Except PyExc Nat) × World :=
  let w := { w with trace := w.trace ++ [Step.forkCall] }
  match spec with
  | .fails errno strerror => (.error (.osError errno strerror), w)
  | .returns pid =>
      if pid = 0 then
        (.ok pid, { w with st := { w.st with sessionLeader := false } })
      else
        (.ok pid, w)

/-- Helper `_fork` from the source: call `os.fork`, catch `OSError` and re-raise
it as `DaemonError` with the strerror and errno in the message. -/
def _fork (spec : ForkSpec) (w : World) : (Except PyExc Nat) × World :=
  match os_fork spec w with
  | (.error (.osError errno strerror), w) =>
      (.error (.daemonError (forkMsg errno strerror)), w)
  | (.error e, w) => (.error e, w)
  | (.ok pid, w) => (.ok pid, w)

/-- Model of `os.setsid()`: on success the process becomes the session leader. -/
def os_setsid (err : Option PyExc) (w : World) : (Except PyExc Unit) × World :=
  let w := { w with trace := w.trace ++ [Step.setsidCall] }
  match err with
  | some e => (.error e, w)
  | none => (.ok (), { w with st := { w.st with sessionLeader := true } })

/-- Model of `signal.signal(signal.SIGHUP, signal.SIG_IGN)`. -/
def signal_ignore_sighup (err : Option PyExc) (w : World) :
    (Except PyExc Unit) × World :=
  let w := { w with trace := w.trace ++ [Step.sigignCall] }
  match err with
  | some e => (.error e, w)
  | none => (.ok (), { w with st := { w.st with sighupIgnored := true } })

/-- Model of `os.umask(m)`. -/
def os_umask (err : Option PyExc) (m : Nat) (w : World) :
    (Except PyExc Unit) × World :=
  let w := { w with trace := w.trace ++ [Step.umaskCall] }
  match err with
  | some e => (.error e, w)
  | none => (.ok (), { w with st := { w.st with umask := m } })

/-- Model of `os.chdir(d)`. -/
def os_chdir (err : Option PyExc) (d : String) (w : World) :
    (Except PyExc Unit) × World :=
  let w := { w with trace := w.trace ++ [Step.chdirCall] }
  match err with
  | some e => (.error e, w)
  | none => (.ok (), { w with st := { w.st with cwd := d } })

/-- Scan bound of the close loop:
`resource.getrlimit(resource.RLIMIT_NOFILE)[1]`, with `RLIM_INFINITY`
(modelled as `none`) replaced by `MAXFD`. -/
def maxfdOf (st : ProcState) : Nat :=
  match st.rlimitNofileHard with
  | none => MAXFD
  | some m => m

/-- One iteration of the close loop: try `os.ttyname fd` (any failure is
swallowed by the bare `except:` and the descriptor is skipped); if it is a
terminal, try `os.close fd`, logging and absorbing any exception. -/
def closeFdStep (env : Env) (i : Nat) (w : World) : World :=
  let w := { w with ttynameCalls := w.ttynameCalls + 1 }
  if ttynameOk w.st.fds i then
    match env.closeErr i with
    | some _ => { w with infoCount := w.infoCount + 1 }
    | none => { w with st := { w.st with fds := setFd w.st.fds i none } }
  else
    w

/-- The per-descriptor close loop: `for fd in range(0, maxfd)`. -/
def closeLoop (env : Env) (w : World) : World :=
  (List.range (maxfdOf w.st)).foldl (fun w i => closeFdStep env i w) w

/-- Model of `os.dup2(oldFd, newFd)`: rebind `newFd` to whatever `oldFd` holds. -/
def os_dup2 (oldFd newFd : Nat) (w : World) : World :=
  { w with st := { w.st with fds := setFd w.st.fds newFd (fdAt w.st.fds oldFd) } }

/-- Model of `os.open(NULL_DEVICE, os.O_RDWR)`: claims the lowest free descriptor. -/
def os_open_null (err : Option PyExc) (w : World) : (Except PyExc Nat) × World :=
  match err with
  | some e => (.error e, w)
  | none =>
      let i := lowestFree w.st.fds
      (.ok i, { w with st := { w.st with fds := setFd w.st.fds i (some nullEntry) } })

/-- Helper `_redirectFileDescriptors` from the source: compute the scan bound,
run the close loop, then open the null device and `dup2` descriptor 0
onto 1 and 2.  The open (and the dups) are not guarded locally. -/
def _redirectFileDescriptors (env : Env) (w : World) :
    (Except PyExc Unit) × World :=
  let w := { w with trace := w.trace ++ [Step.redirectCall] }
  let w := closeLoop env w
  match os_open_null env.openNullErr w with
  | (.error e, w) => (.error e, w)
  | (.ok _, w) => (.ok (), os_dup2 0 2 (os_dup2 0 1 w))

/-- Sequence a fallible call inside the top-level `try`: an exception
propagates to the handler, otherwise continue. -/
def step (r : (Except PyExc Unit) × World) (k : World → DResult) : DResult :=
  match r with
  | (.error e, w) => .raised e w
  | (.ok _, w) => k w

/-- The final statement of the `try` block: run the reclaimer and, if it
does not raise, fall off the end of the block (a normal return). -/
def finishRedirect (env : Env) (w : World) : DResult :=
  step (_redirectFileDescriptors env w) fun w7 => .returned w7

/-- The body of the `try` block of `daemonize`, translated statement by
statement from the source. -/
def daemonizeBody (no_close : Bool) (env : Env) (w : World) : DResult :=
  match _fork env.fork1 w with
  | (.error e, w1) => .raised e w1
  | (.ok pid, w1) =>
    if pid ≠ 0 then .exited 0 false w1 else
    step (os_setsid env.setsidErr w1) fun w2 =>
    step (signal_ignore_sighup env.signalErr w2) fun w3 =>
    match _fork env.fork2 w3 with
    | (.error e, w4) => .raised e w4
    | (.ok pid2, w4) =>
      if pid2 ≠ 0 then .exited 0 false w4 else
      step (os_umask env.umaskErr UMASK w4) fun w5 =>
      step (os_chdir env.chdirErr WORKDIR w5) fun w6 =>
      if no_close then .returned w6 else
      finishRedirect env w6

/-- The top-level `except Exception` handler: any exception escaping the
body is re-raised as `DaemonError("Error during daemonizing: ...")`;
returns and process exits pass through. -/
def wrapResult : DResult → DResult
  | .raised e w => .raised (wrapTop e) w
  | r => r

/-- Entry point `daemonize` from the source: non-POSIX platforms get one warning and a
normal return; on POSIX the body runs under a handler that wraps any
exception as `DaemonError("Error during daemonizing: ...")`.  Process
exits (`os._exit`) are not exceptions and pass through the handler. -/
def daemonize (no_close : Bool) (env : Env) (w : World) : DResult :=
  if w.st.osName ≠ "posix" then
    .returned { w with warnCount := w.warnCount + 1 }
  else
    wrapResult (daemonizeBody no_close env w)

/-- The world carried by an outcome. -/
def finalWorld : DResult → World
  | .returned w => w
  | .exited _ _ w => w
  | .raised _ w => w

/-- Whether the outcome is a normal return. -/
def isReturned : DResult → Bool
  | .returned _ => true
  | _ => false

/-- Whether the outcome is `os._exit(0)` with atexit hooks skipped. -/
def isExit0NoAtexit : DResult → Bool
  | .exited 0 false _ => true
  | _ => false

/-- The exception carried by a raised outcome, if any. -/
def resultExc : DResult → Option PyExc
  | .raised e _ => some e
  | _ => none

/-! ### Concrete fixtures -/

/-- Fault-free environment in which both forks land in the surviving
child; the behaviour of `os.close` inside the loop is a parameter. -/
def cleanEnv (cf : Nat → Option PyExc) : Env :=
  { fork1 := .returns 0, fork2 := .returns 0, setsidErr := none,
    signalErr := none, umaskErr := none, chdirErr := none,
    openNullErr := none, closeErr := cf }

/-- Environment in which `os.close` never raises. -/
def noCloseErr : Nat → Option PyExc := fun _ => none

/-- A terminal-backed descriptor entry. -/
def ttyEntry : FdEntry := { device := "/dev/tty0", isTerminal := true }

/-- A regular-file descriptor entry (an already-open log file). -/
def fileEntry : FdEntry := { device := "/var/log/app.log", isTerminal := false }

/-- A foreground POSIX process: terminals on 0/1/2, a log file on 3. -/
def baseWorld : World :=
  { st := { osName := "posix",
            fds := [some ttyEntry, some ttyEntry, some ttyEntry, some fileEntry],
            umask := 0o022, cwd := "/home/user", sighupIgnored := false,
            sessionLeader := false, rlimitNofileHard := some 6 },
    trace := [], warnCount := 0, infoCount := 0, ttynameCalls := 0 }

/-- A POSIX process whose descriptor 0 is a non-terminal file and whose
descriptor 1 is a terminal. -/
def mixWorld : World :=
  { st := { osName := "posix", fds := [some fileEntry, some ttyEntry],
            umask := 0o022, cwd := "/home/user", sighupIgnored := false,
            sessionLeader := false, rlimitNofileHard := some 3 },
    trace := [], warnCount := 0, infoCount := 0, ttynameCalls := 0 }

/-- The world produced by a fault-free daemonization of `baseWorld`. -/
def daemonizedBaseWorld : World :=
  finalWorld (daemonize false (cleanEnv noCloseErr) baseWorld)

/-- A non-POSIX process. -/
def ntWorld : World :=
  { st := { osName := "nt",
            fds := [some ttyEntry, some ttyEntry, some ttyEntry, some fileEntry],
            umask := 0o022, cwd := "C:", sighupIgnored := false,
            sessionLeader := false, rlimitNofileHard := some 6 },
    trace := [], warnCount := 0, infoCount := 0, ttynameCalls := 0 }

/-! ### Frame lemmas for the descriptor table and the close loop -/

theorem fdAt_setFd_self (t : List (Option FdEntry)) (i : Nat) (e : Option FdEntry) :
    fdAt (setFd t i e) i = e := by
  unfold fdAt setFd
  rw [List.getD_eq_getElem?_getD, List.getElem?_set_self (by
    simp only [List.length_append, List.length_replicate]
    omega)]
  rfl

theorem fdAt_setFd_ne (t : List (Option FdEntry)) (i j : Nat) (e : Option FdEntry)
    (h : i ≠ j) : fdAt (setFd t i e) j = fdAt t j := by
  unfold fdAt setFd
  rw [List.getD_eq_getElem?_getD, List.getD_eq_getElem?_getD,
    List.getElem?_set_ne h, List.getElem?_append]
  split
  · rfl
  · rename_i hj
    rw [List.getElem?_replicate, List.getElem?_eq_none (by omega)]
    split <;> rfl

theorem ttynameOk_congr (t t' : List (Option FdEntry)) (i : Nat)
    (h : fdAt t i = fdAt t' i) : ttynameOk t i = ttynameOk t' i := by
  unfold ttynameOk
  rw [h]

theorem ttynameOk_of_closed (t : List (Option FdEntry)) (i : Nat)
    (h : fdAt t i = none) : ttynameOk t i = false := by
  unfold ttynameOk
  rw [h]

/-- Lemma: `closeFdStep` only changes the fd table, the info-log counter and the
ttyname-call counter. -/
theorem closeFdStep_eq (env : Env) (i : Nat) (w : World) :
    ∃ f ic tc, closeFdStep env i w =
      { w with st := { w.st with fds := f }, infoCount := ic, ttynameCalls := tc } := by
  unfold closeFdStep
  dsimp only
  split
  · split
    · exact ⟨w.st.fds, w.infoCount + 1, w.ttynameCalls + 1, rfl⟩
    · exact ⟨_, w.infoCount, w.ttynameCalls + 1, rfl⟩
  · exact ⟨w.st.fds, w.infoCount, w.ttynameCalls + 1, rfl⟩

theorem foldlClose_eq (env : Env) (l : List Nat) (w : World) :
    ∃ f ic tc, l.foldl (fun w j => closeFdStep env j w) w =
      { w with st := { w.st with fds := f }, infoCount := ic, ttynameCalls := tc } := by
  induction l generalizing w with
  | nil => exact ⟨w.st.fds, w.infoCount, w.ttynameCalls, rfl⟩
  | cons j l ih =>
    obtain ⟨f1, i1, t1, h1⟩ := closeFdStep_eq env j w
    obtain ⟨f2, i2, t2, h2⟩ := ih (closeFdStep env j w)
    refine ⟨f2, i2, t2, ?_⟩
    rw [List.foldl_cons, h2, h1]

theorem closeLoop_eq (env : Env) (w : World) :
    ∃ f ic tc, closeLoop env w =
      { w with st := { w.st with fds := f }, infoCount := ic, ttynameCalls := tc } :=
  foldlClose_eq env (List.range (maxfdOf w.st)) w

/-- Iterating the close step on descriptor `j` leaves every other
descriptor untouched. -/
theorem closeFdStep_fdAt_ne (env : Env) (j i : Nat) (w : World) (h : j ≠ i) :
    fdAt (closeFdStep env j w).st.fds i = fdAt w.st.fds i := by
  unfold closeFdStep
  dsimp only
  split
  · split
    · rfl
    · exact fdAt_setFd_ne _ _ _ _ h
  · rfl

/-- A descriptor that does not resolve to a terminal is skipped. -/
theorem closeFdStep_fdAt_self_notty (env : Env) (i : Nat) (w : World)
    (h : ttynameOk w.st.fds i = false) :
    fdAt (closeFdStep env i w).st.fds i = fdAt w.st.fds i := by
  unfold closeFdStep
  dsimp only
  rw [h]
  rfl

/-- An exception from `os.close` is absorbed and the descriptor is left
untouched. -/
theorem closeFdStep_fdAt_self_err (env : Env) (i : Nat) (w : World) (e : PyExc)
    (herr : env.closeErr i = some e) :
    fdAt (closeFdStep env i w).st.fds i = fdAt w.st.fds i := by
  unfold closeFdStep
  dsimp only
  split
  · rw [herr]
  · rfl

/-- A terminal-backed descriptor whose close succeeds ends up closed. -/
theorem closeFdStep_closes (env : Env) (i : Nat) (w : World)
    (htty : ttynameOk w.st.fds i = true) (herr : env.closeErr i = none) :
    fdAt (closeFdStep env i w).st.fds i = none := by
  unfold closeFdStep
  dsimp only
  rw [htty]
  simp only [if_true]
  rw [herr]
  exact fdAt_setFd_self _ _ _

/-- Along the whole loop, a descriptor that does not resolve to a
terminal is never touched. -/
theorem foldlClose_skip (env : Env) (i : Nat) (l : List Nat) (w : World)
    (h : ttynameOk w.st.fds i = false) :
    fdAt ((l.foldl (fun w j => closeFdStep env j w) w)).st.fds i = fdAt w.st.fds i := by
  induction l generalizing w with
  | nil => rfl
  | cons j l ih =>
    rw [List.foldl_cons]
    have hstep : fdAt (closeFdStep env j w).st.fds i = fdAt w.st.fds i := by
      by_cases hji : j = i
      · subst hji
        exact closeFdStep_fdAt_self_notty env j w h
      · exact closeFdStep_fdAt_ne env j i w hji
    rw [ih (closeFdStep env j w) (by rw [ttynameOk_congr _ _ _ hstep]; exact h), hstep]

/-- Along the whole loop, a descriptor whose close raises is never
changed. -/
theorem foldlClose_closeErr (env : Env) (i : Nat) (e : PyExc)
    (herr : env.closeErr i = some e) (l : List Nat) (w : World) :
    fdAt ((l.foldl (fun w j => closeFdStep env j w) w)).st.fds i = fdAt w.st.fds i := by
  induction l generalizing w with
  | nil => rfl
  | cons j l ih =>
    rw [List.foldl_cons]
    have hstep : fdAt (closeFdStep env j w).st.fds i = fdAt w.st.fds i := by
      by_cases hji : j = i
      · subst hji
        exact closeFdStep_fdAt_self_err env j w e herr
      · exact closeFdStep_fdAt_ne env j i w hji
    rw [ih (closeFdStep env j w), hstep]

/-- A terminal-backed descriptor in the scanned range whose close
succeeds is closed by the loop. -/
theorem foldlClose_closes (env : Env) (i : Nat) (l : List Nat)
    (herr : env.closeErr i = none) (w : World)
    (hmem : i ∈ l) (htty : ttynameOk w.st.fds i = true) :
    fdAt ((l.foldl (fun w j => closeFdStep env j w) w)).st.fds i = none := by
  induction l generalizing w with
  | nil => exact absurd hmem (List.not_mem_nil i)
  | cons j l ih =>
    rw [List.foldl_cons]
    by_cases hji : j = i
    · subst hji
      have hclosed : fdAt (closeFdStep env j w).st.fds j = none :=
        closeFdStep_closes env j w htty herr
      rw [foldlClose_skip env j l _ (ttynameOk_of_closed _ _ hclosed)]
      exact hclosed
    · have hstep : fdAt (closeFdStep env j w).st.fds i = fdAt w.st.fds i :=
        closeFdStep_fdAt_ne env j i w hji
      have hmem' : i ∈ l := by
        rcases List.mem_cons.mp hmem with h | h
        · exact absurd h.symm hji
        · exact h
      exact ih (closeFdStep env j w) hmem'
        (by rw [ttynameOk_congr _ _ _ hstep]; exact htty)

/-- Each loop iteration issues exactly one `os.ttyname` call. -/
theorem closeFdStep_calls (env : Env) (j : Nat) (w : World) :
    (closeFdStep env j w).ttynameCalls = w.ttynameCalls + 1 := by
  unfold closeFdStep
  dsimp only
  split
  · split <;> rfl
  · rfl

theorem foldlClose_calls (env : Env) (l : List Nat) (w : World) :
    (l.foldl (fun w j => closeFdStep env j w) w).ttynameCalls =
      w.ttynameCalls + l.length := by
  induction l generalizing w with
  | nil => rfl
  | cons j l ih =>
    rw [List.foldl_cons, ih (closeFdStep env j w), closeFdStep_calls]
    simp only [List.length_cons]
    omega

/-- After the close loop, the reclaimer opens the null device and `dup2`s
descriptor 0 onto 1 and 2; when the open does not fault, the reclaimer
succeeds and only the fd table, the info counter and the ttyname counter
change. -/
theorem redirect_eq (env : Env) (w : World) (h : env.openNullErr = none) :
    ∃ f ic tc, _redirectFileDescriptors env w =
      (.ok (),
        { w with
            st := { w.st with fds := f },
            trace := w.trace ++ [Step.redirectCall],
            infoCount := ic,
            ttynameCalls := tc }) := by
  simp only [_redirectFileDescriptors, os_open_null, h, os_dup2]
  obtain ⟨f, ic, tc, hcl⟩ :=
    closeLoop_eq env { w with trace := w.trace ++ [Step.redirectCall] }
  rw [hcl]
  exact ⟨_, ic, tc, rfl⟩

/-- The exception handler changes neither the outcome kind nor the world. -/
theorem wrapResult_isReturned (r : DResult) :
    isReturned (wrapResult r) = isReturned r := by
  cases r <;> rfl

theorem wrapResult_isExit0 (r : DResult) :
    isExit0NoAtexit (wrapResult r) = isExit0NoAtexit r := by
  cases r <;> rfl

theorem wrapResult_finalWorld (r : DResult) :
    finalWorld (wrapResult r) = finalWorld r := by
  cases r <;> rfl

/-- When the null-device open does not fault, the reclaimer step returns
normally and only the fd table, the info counter and the ttyname counter
change, with one `redirectCall` appended to the trace. -/
theorem finishRedirect_ok (env : Env) (w : World) (h : env.openNullErr = none) :
    ∃ f ic tc, finishRedirect env w =
      .returned
        { w with
            st := { w.st with fds := f },
            trace := w.trace ++ [Step.redirectCall],
            infoCount := ic,
            ttynameCalls := tc } := by
  obtain ⟨f, ic, tc, hr⟩ := redirect_eq env w h
  refine ⟨f, ic, tc, ?_⟩
  unfold finishRedirect
  rw [hr]
  rfl

theorem finishRedirect_isReturned (env : Env) (w : World)
    (h : env.openNullErr = none) :
    isReturned (finishRedirect env w) = true := by
  obtain ⟨f, ic, tc, hr⟩ := finishRedirect_ok env w h
  rw [hr]
  rfl

theorem finishRedirect_trace (env : Env) (w : World)
    (h : env.openNullErr = none) :
    (finalWorld (finishRedirect env w)).trace = w.trace ++ [Step.redirectCall] := by
  obtain ⟨f, ic, tc, hr⟩ := finishRedirect_ok env w h
  rw [hr]
  rfl

theorem finishRedirect_umask (env : Env) (w : World)
    (h : env.openNullErr = none) :
    (finalWorld (finishRedirect env w)).st.umask = w.st.umask := by
  obtain ⟨f, ic, tc, hr⟩ := finishRedirect_ok env w h
  rw [hr]
  rfl

theorem finishRedirect_cwd (env : Env) (w : World)
    (h : env.openNullErr = none) :
    (finalWorld (finishRedirect env w)).st.cwd = w.st.cwd := by
  obtain ⟨f, ic, tc, hr⟩ := finishRedirect_ok env w h
  rw [hr]
  rfl

/-- The handler turns a result into a normal return only if the body
returned normally. -/
theorem wrapResult_eq_returned (r : DResult) (w' : World) :
    wrapResult r = .returned w' ↔ r = .returned w' := by
  cases r <;> simp [wrapResult]

/-- If the reclaimer step returns normally, umask and cwd are unchanged
by it (whatever the fault environment). -/
theorem finishRedirect_returned_umask_cwd (env : Env) (w : World) (w' : World)
    (h : finishRedirect env w = .returned w') :
    w'.st.umask = w.st.umask ∧ w'.st.cwd = w.st.cwd := by
  rcases hoe : env.openNullErr with _ | e
  · obtain ⟨f, ic, tc, hr⟩ := finishRedirect_ok env w hoe
    rw [hr] at h
    injection h with h
    subst h
    exact ⟨rfl, rfl⟩
  · simp only [finishRedirect, _redirectFileDescriptors, os_open_null, hoe, step,
      reduceCtorEq] at h


/-! ### Claim theorems -/

/-- C6: for every input flag value, invoking `daemonize` on a non-POSIX
platform never forks, never changes the working directory, umask, signal
dispositions or any file descriptor, emits exactly one warning through the
logging collaborator, and returns success. -/
theorem C6_nonposix_noop (nc : Bool) (env : Env) (w : World)
    (hnp : w.st.osName ≠ "posix") :
    daemonize nc env w = .returned { w with warnCount := w.warnCount + 1 } ∧
    (finalWorld (daemonize nc env w)).st = w.st ∧
    (finalWorld (daemonize nc env w)).trace = w.trace ∧
    (finalWorld (daemonize nc env w)).warnCount = w.warnCount + 1 := by
  have h : daemonize nc env w = .returned { w with warnCount := w.warnCount + 1 } := by
    unfold daemonize
    rw [if_pos hnp]
  refine ⟨h, ?_, ?_, ?_⟩ <;> rw [h] <;> rfl

/-- C6 witness at a concrete non-POSIX world. -/
theorem C6_nonposix_noop_witness :
    daemonize false (cleanEnv noCloseErr) ntWorld =
      .returned { ntWorld with warnCount := ntWorld.warnCount + 1 } :=
  (C6_nonposix_noop false (cleanEnv noCloseErr) ntWorld (by decide)).1

/-- C7: for every initial descriptor table, `daemonize` invoked with the
suppress flag (`no_close = true`) closes none of the originally open file
descriptors and leaves the descriptor table unchanged, whatever the
outcome. -/
theorem C7_no_close_preserves_fds (env : Env) (w : World) :
    (finalWorld (daemonize true env w)).st.fds = w.st.fds := by
  obtain ⟨f1, f2, se, sge, ue, ce, oe, cle⟩ := env
  unfold daemonize
  split
  · rfl
  · unfold daemonizeBody _fork os_fork step os_setsid signal_ignore_sighup os_umask os_chdir
    rcases f1 with ⟨n, s⟩ | ⟨_ | p⟩ <;>
      rcases se with _ | e1 <;>
      rcases sge with _ | e2 <;>
      rcases f2 with ⟨n2, s2⟩ | ⟨_ | p2⟩ <;>
      rcases ue with _ | e3 <;>
      rcases ce with _ | e4 <;>
      rfl

/-- C8: the Descriptor Reclaimer scan bound is the hard limit on open
descriptors; when the limit is reported unlimited the loop examines
exactly the fixed fallback ceiling `MAXFD = 1024` descriptors (one
`os.ttyname` probe each). -/
theorem C8_scan_bound (env : Env) (w : World) :
    (closeLoop env w).ttynameCalls = w.ttynameCalls + maxfdOf w.st ∧
    (w.st.rlimitNofileHard = none → maxfdOf w.st = MAXFD ∧ MAXFD = 1024) ∧
    (∀ m, w.st.rlimitNofileHard = some m → maxfdOf w.st = m) := by
  refine ⟨?_, ?_, ?_⟩
  · have h := foldlClose_calls env (List.range (maxfdOf w.st)) w
    rw [List.length_range] at h
    exact h
  · intro h
    unfold maxfdOf
    rw [h]
    exact ⟨rfl, rfl⟩
  · intro m h
    unfold maxfdOf
    rw [h]

/-- C8 witness: with the hard limit reported unlimited, the loop issues
exactly 1024 ttyname probes. -/
theorem C8_scan_bound_witness :
    (closeLoop (cleanEnv noCloseErr)
        { baseWorld with st := { baseWorld.st with rlimitNofileHard := none } }).ttynameCalls =
      0 + maxfdOf { baseWorld.st with rlimitNofileHard := none } ∧
    maxfdOf { baseWorld.st with rlimitNofileHard := none } = MAXFD ∧ MAXFD = 1024 :=
  ⟨(C8_scan_bound (cleanEnv noCloseErr) _).1,
   (C8_scan_bound (cleanEnv noCloseErr)
      { baseWorld with st := { baseWorld.st with rlimitNofileHard := none } }).2.1 rfl⟩

/-- C10: the per-descriptor close loop is conservative: a descriptor that
does not resolve to a terminal (including one that is not open) is left
untouched; a descriptor can only become closed if resolution succeeded;
an error raised by `os.close` is absorbed and leaves the descriptor
untouched; an open non-terminal descriptor keeps its entry.  The loop is
a total function of the world, so it never raises. -/
theorem C10_close_loop_conservative (env : Env) (w : World) (i : Nat) :
    (ttynameOk w.st.fds i = false →
      fdAt (closeLoop env w).st.fds i = fdAt w.st.fds i) ∧
    (fdAt (closeLoop env w).st.fds i = none →
      fdAt w.st.fds i = none ∨ ttynameOk w.st.fds i = true) ∧
    (∀ e, env.closeErr i = some e →
      fdAt (closeLoop env w).st.fds i = fdAt w.st.fds i) ∧
    (∀ e, fdAt w.st.fds i = some e → e.isTerminal = false →
      fdAt (closeLoop env w).st.fds i = some e) := by
  have hskip : ttynameOk w.st.fds i = false →
      fdAt (closeLoop env w).st.fds i = fdAt w.st.fds i := fun h =>
    foldlClose_skip env i (List.range (maxfdOf w.st)) w h
  refine ⟨hskip, ?_, ?_, ?_⟩
  · intro hnone
    by_cases htty : ttynameOk w.st.fds i = true
    · exact Or.inr htty
    · refine Or.inl ?_
      rw [← hskip (Bool.not_eq_true _ ▸ htty)]
      exact hnone
  · intro e he
    exact foldlClose_closeErr env i e he (List.range (maxfdOf w.st)) w
  · intro e he hterm
    have htty : ttynameOk w.st.fds i = false := by
      unfold ttynameOk
      rw [he]
      exact hterm
    rw [hskip htty, he]

/-- C10 witness: in the base world the log file on descriptor 3 survives
the loop. -/
theorem C10_close_loop_conservative_witness :
    fdAt (closeLoop (cleanEnv noCloseErr) baseWorld).st.fds 3 =
      some fileEntry :=
  (C10_close_loop_conservative (cleanEnv noCloseErr) baseWorld 3).2.2.2
    fileEntry (by decide) (by decide)



/-- C1: on POSIX, `daemonize` executes the seven documented steps in
strict order: first fork (the parent branch terminating with status 0 via
the atexit-skipping exit after only the fork), session creation, ignoring
the hangup signal, second fork (the intermediate branch terminating the
same way after exactly those four calls), setting the umask, changing the
working directory, and finally (unless suppressed) the descriptor
cleanup; the surviving trace contains each step exactly once, in order. -/
theorem C1_steps_in_order (w : World) (cf : Nat → Option PyExc) (nc : Bool)
    (hpos : w.st.osName = "posix") :
    (∀ p : Nat, p ≠ 0 →
      isExit0NoAtexit (daemonize nc { cleanEnv cf with fork1 := .returns p } w) = true ∧
      (finalWorld (daemonize nc { cleanEnv cf with fork1 := .returns p } w)).trace =
        w.trace ++ [Step.forkCall]) ∧
    (∀ p : Nat, p ≠ 0 →
      isExit0NoAtexit (daemonize nc { cleanEnv cf with fork2 := .returns p } w) = true ∧
      (finalWorld (daemonize nc { cleanEnv cf with fork2 := .returns p } w)).trace =
        w.trace ++ [Step.forkCall, Step.setsidCall, Step.sigignCall, Step.forkCall]) ∧
    (isReturned (daemonize nc (cleanEnv cf) w) = true ∧
      (finalWorld (daemonize nc (cleanEnv cf) w)).trace =
        w.trace ++ ([Step.forkCall, Step.setsidCall, Step.sigignCall, Step.forkCall,
          Step.umaskCall, Step.chdirCall] ++ if nc then [] else [Step.redirectCall])) := by
  refine ⟨?_, ?_, ?_⟩
  · intro p hp
    simp [daemonize, hpos, daemonizeBody, _fork, os_fork, cleanEnv, hp, wrapResult,
      isExit0NoAtexit, finalWorld]
  · intro p hp
    simp [daemonize, hpos, daemonizeBody, _fork, os_fork, step, os_setsid,
      signal_ignore_sighup, cleanEnv, hp, wrapResult, isExit0NoAtexit, finalWorld]
  · cases nc with
    | true =>
      simp [daemonize, hpos, daemonizeBody, _fork, os_fork, step, os_setsid,
        signal_ignore_sighup, os_umask, os_chdir, cleanEnv, wrapResult,
        isReturned, finalWorld]
    | false =>
      simp [daemonize, hpos, daemonizeBody, _fork, os_fork, step, os_setsid,
        signal_ignore_sighup, os_umask, os_chdir, cleanEnv,
        wrapResult_isReturned, wrapResult_finalWorld,
        finishRedirect_isReturned, finishRedirect_trace, List.append_assoc]

/-- C1 witness: concrete run in the base world. -/
theorem C1_steps_in_order_witness :
    isReturned (daemonize false (cleanEnv noCloseErr) baseWorld) = true ∧
    (finalWorld (daemonize false (cleanEnv noCloseErr) baseWorld)).trace =
      baseWorld.trace ++ ([Step.forkCall, Step.setsidCall, Step.sigignCall,
        Step.forkCall, Step.umaskCall, Step.chdirCall] ++
          if false then [] else [Step.redirectCall]) :=
  (C1_steps_in_order baseWorld noCloseErr false rfl).2.2



/-- C4: on POSIX, a failure during either fork, session creation, the
signal-disposition change, the umask change or the working-directory
change makes `daemonize` raise exactly the daemonization error
(`DaemonError`), whose message carries the underlying cause; a fork
failure carries the OS error code and description (via `forkMsg`); no
such failure is swallowed at the top level. -/
theorem C4_failures_wrapped (w : World) (nc : Bool) (env : Env)
    (hpos : w.st.osName = "posix") :
    (∀ n s, env.fork1 = .fails n s →
      resultExc (daemonize nc env w) =
        some (wrapTop (.daemonError (forkMsg n s)))) ∧
    (∀ e, env.fork1 = .returns 0 → env.setsidErr = some e →
      resultExc (daemonize nc env w) = some (wrapTop e)) ∧
    (∀ e, env.fork1 = .returns 0 → env.setsidErr = none →
      env.signalErr = some e →
      resultExc (daemonize nc env w) = some (wrapTop e)) ∧
    (∀ n s, env.fork1 = .returns 0 → env.setsidErr = none →
      env.signalErr = none → env.fork2 = .fails n s →
      resultExc (daemonize nc env w) =
        some (wrapTop (.daemonError (forkMsg n s)))) ∧
    (∀ e, env.fork1 = .returns 0 → env.setsidErr = none →
      env.signalErr = none → env.fork2 = .returns 0 → env.umaskErr = some e →
      resultExc (daemonize nc env w) = some (wrapTop e)) ∧
    (∀ e, env.fork1 = .returns 0 → env.setsidErr = none →
      env.signalErr = none → env.fork2 = .returns 0 → env.umaskErr = none →
      env.chdirErr = some e →
      resultExc (daemonize nc env w) = some (wrapTop e)) := by
  refine ⟨?_, ?_, ?_, ?_, ?_, ?_⟩
  · intro n s h1
    simp [daemonize, hpos, daemonizeBody, _fork, os_fork, h1, wrapResult, resultExc]
  · intro e h1 h2
    simp [daemonize, hpos, daemonizeBody, _fork, os_fork, step, os_setsid, h1, h2,
      wrapResult, resultExc]
  · intro e h1 h2 h3
    simp [daemonize, hpos, daemonizeBody, _fork, os_fork, step, os_setsid,
      signal_ignore_sighup, h1, h2, h3, wrapResult, resultExc]
  · intro n s h1 h2 h3 h4
    simp [daemonize, hpos, daemonizeBody, _fork, os_fork, step, os_setsid,
      signal_ignore_sighup, h1, h2, h3, h4, wrapResult, resultExc]
  · intro e h1 h2 h3 h4 h5
    simp [daemonize, hpos, daemonizeBody, _fork, os_fork, step, os_setsid,
      signal_ignore_sighup, os_umask, h1, h2, h3, h4, h5, wrapResult, resultExc]
  · intro e h1 h2 h3 h4 h5 h6
    simp [daemonize, hpos, daemonizeBody, _fork, os_fork, step, os_setsid,
      signal_ignore_sighup, os_umask, os_chdir, h1, h2, h3, h4, h5, h6,
      wrapResult, resultExc]

/-- C4 witness: a first-fork failure (ENOMEM) surfaces as a wrapped
daemonization error. -/
theorem C4_failures_wrapped_witness :
    resultExc (daemonize false
      { cleanEnv noCloseErr with fork1 := .fails 12 "Cannot allocate memory" }
      baseWorld) =
      some (wrapTop (.daemonError (forkMsg 12 "Cannot allocate memory"))) :=
  (C4_failures_wrapped baseWorld false
    { cleanEnv noCloseErr with fork1 := .fails 12 "Cannot allocate memory" }
    rfl).1 12 "Cannot allocate memory" rfl

/-- C9: a fork failure reaches the caller wrapped twice: `_fork` turns
the `OSError` into `DaemonError("Cannot fork: <strerror> [<errno>]")`,
and the top-level handler wraps the `repr` of that object again, so the
caller sees
`DaemonError("Error during daemonizing: DaemonError(\x27Cannot fork: ...\x27)")`
rather than the bare OS message. -/
theorem C9_fork_error_double_wrap (w : World) (nc : Bool) (env : Env)
    (n : Nat) (s : String) (hpos : w.st.osName = "posix") :
    (env.fork1 = .fails n s →
      resultExc (daemonize nc env w) =
        some (.daemonError ("Error during daemonizing: " ++
          ("DaemonError(" ++ (sq ++ forkMsg n s ++ sq) ++ ")")))) ∧
    (env.fork1 = .returns 0 → env.setsidErr = none → env.signalErr = none →
      env.fork2 = .fails n s →
      resultExc (daemonize nc env w) =
        some (.daemonError ("Error during daemonizing: " ++
          ("DaemonError(" ++ (sq ++ forkMsg n s ++ sq) ++ ")")))) := by
  constructor
  · intro h1
    simp [daemonize, hpos, daemonizeBody, _fork, os_fork, h1, wrapResult,
      resultExc, wrapTop, pyRepr, pyReprStr]
  · intro h1 h2 h3 h4
    simp [daemonize, hpos, daemonizeBody, _fork, os_fork, step, os_setsid,
      signal_ignore_sighup, h1, h2, h3, h4, wrapResult, resultExc, wrapTop,
      pyRepr, pyReprStr]

/-- C9 witness: the concrete double-wrapped message for ENOMEM. -/
theorem C9_fork_error_double_wrap_witness :
    resultExc (daemonize false
      { cleanEnv noCloseErr with fork1 := .fails 12 "Cannot allocate memory" }
      baseWorld) =
      some (.daemonError ("Error during daemonizing: " ++
        ("DaemonError(" ++ (sq ++ forkMsg 12 "Cannot allocate memory" ++ sq) ++ ")"))) :=
  (C9_fork_error_double_wrap baseWorld false
    { cleanEnv noCloseErr with fork1 := .fails 12 "Cannot allocate memory" }
    12 "Cannot allocate memory" rfl).1 rfl




theorem fdAt_eq_none_of_le (t : List (Option FdEntry)) (i : Nat)
    (h : t.length ≤ i) : fdAt t i = none := by
  unfold fdAt
  rw [List.getD_eq_getElem?_getD, List.getElem?_eq_none h]
  rfl

theorem lt_length_of_fdAt_some (t : List (Option FdEntry)) (i : Nat) (e : FdEntry)
    (h : fdAt t i = some e) : i < t.length := by
  by_contra hc
  push_neg at hc
  rw [fdAt_eq_none_of_le t i hc] at h
  exact Option.noConfusion h

theorem ttynameOk_some (t : List (Option FdEntry)) (i : Nat)
    (h : ttynameOk t i = true) :
    ∃ e, fdAt t i = some e ∧ e.isTerminal = true := by
  unfold ttynameOk at h
  cases hfd : fdAt t i with
  | none => rw [hfd] at h; exact absurd h (by simp)
  | some e => rw [hfd] at h; exact ⟨e, rfl, h⟩

/-- With descriptor 0 free, `os.open` claims descriptor 0. -/
theorem lowestFree_zero (t : List (Option FdEntry)) (h : fdAt t 0 = none) :
    lowestFree t = 0 := by
  simp [lowestFree, List.range_succ_eq_map, List.find?_cons, h]

theorem closeLoop_skip (env : Env) (w : World) (i : Nat)
    (h : ttynameOk w.st.fds i = false) :
    fdAt (closeLoop env w).st.fds i = fdAt w.st.fds i :=
  foldlClose_skip env i (List.range (maxfdOf w.st)) w h

theorem closeLoop_closes (env : Env) (w : World) (i : Nat)
    (herr : env.closeErr i = none) (hmem : i < maxfdOf w.st)
    (htty : ttynameOk w.st.fds i = true) :
    fdAt (closeLoop env w).st.fds i = none :=
  foldlClose_closes env i (List.range (maxfdOf w.st)) herr w
    (List.mem_range.mpr hmem) htty

/-- The fd table produced by the reclaimer: the table after the close
loop, with the null entry written at the lowest free slot and descriptor
0 then duplicated onto 1 and 2. -/
theorem redirect_result_fds (env : Env) (w : World) (hoe : env.openNullErr = none) :
    (_redirectFileDescriptors env w).1 = Except.ok () ∧
    ((_redirectFileDescriptors env w).2).st.fds =
      (let t2 := (closeLoop env { w with trace := w.trace ++ [Step.redirectCall] }).st.fds
       let t3 := setFd t2 (lowestFree t2) (some nullEntry)
       let t4 := setFd t3 1 (fdAt t3 0)
       setFd t4 2 (fdAt t4 0)) := by
  refine ⟨?_, ?_⟩ <;>
    simp only [_redirectFileDescriptors, os_open_null, hoe, os_dup2]

set_option maxHeartbeats 1000000 in
/-- C5: after every successful POSIX run of `daemonize`, regardless of
the prior umask and working directory, the file-creation mask equals the
configured default `UMASK` (octal 077) and the working directory equals
the configured default `WORKDIR` (the filesystem root). -/
theorem C5_umask_and_cwd (env : Env) (w : World) (nc : Bool) (w' : World)
    (hpos : w.st.osName = "posix")
    (hret : daemonize nc env w = .returned w') :
    w'.st.umask = UMASK ∧ UMASK = 0o077 ∧ w'.st.cwd = WORKDIR ∧ WORKDIR = "/" := by
  obtain ⟨f1, f2, se, sge, ue, ce, oe, cle⟩ := env
  unfold daemonize at hret
  rw [if_neg (not_not_intro hpos)] at hret
  cases nc <;>
  rcases f1 with ⟨n, s⟩ | ⟨_ | p⟩ <;>
  rcases se with _ | e1 <;>
  rcases sge with _ | e2 <;>
  rcases f2 with ⟨n2, s2⟩ | ⟨_ | p2⟩ <;>
  rcases ue with _ | e3 <;>
  rcases ce with _ | e4 <;>
  simp only [daemonizeBody, _fork, os_fork, step, os_setsid, signal_ignore_sighup,
    os_umask, os_chdir, wrapResult_eq_returned, if_true, if_false, ne_eq, reduceCtorEq,
    reduceIte, Nat.succ_ne_zero, not_false_eq_true, not_true_eq_false,
    ite_true, ite_false] at hret
  all_goals
    first
    | (injection hret with h
       subst h
       exact ⟨rfl, rfl, rfl, rfl⟩)
    | (obtain ⟨h1, h2⟩ := finishRedirect_returned_umask_cwd _ _ _ hret
       exact ⟨h1.trans rfl, rfl, h2.trans rfl, rfl⟩)

/-- C5 witness: the fault-free run from `baseWorld` ends with umask 077
and cwd `/`. -/
theorem C5_umask_and_cwd_witness :
    daemonizedBaseWorld.st.umask = UMASK ∧ UMASK = 0o077 ∧
    daemonizedBaseWorld.st.cwd = WORKDIR ∧ WORKDIR = "/" :=
  C5_umask_and_cwd (cleanEnv noCloseErr) baseWorld false daemonizedBaseWorld
    rfl (by decide)



/-- C2 counterexample: in a process whose descriptors are a mix — a
non-terminal log file on descriptor 0 and a terminal on descriptor 1 —
the reclaimer leaves descriptors 0, 1 and 2 all referring to the log
file, not the null device: `os.open` claims the lowest free descriptor
(1, not 0), and the two `dup2(0, ...)` calls then propagate descriptor
file originally at descriptor 0, clobbering the just-opened null device. -/
theorem C2_counterexample :
    fdAt mixWorld.st.fds 0 = some fileEntry ∧ fileEntry.isTerminal = false ∧
    fdAt mixWorld.st.fds 1 = some ttyEntry ∧ ttyEntry.isTerminal = true ∧
    fdAt ((_redirectFileDescriptors (cleanEnv noCloseErr) mixWorld).2).st.fds 0 =
      some fileEntry ∧
    fdAt ((_redirectFileDescriptors (cleanEnv noCloseErr) mixWorld).2).st.fds 1 =
      some fileEntry ∧
    fdAt ((_redirectFileDescriptors (cleanEnv noCloseErr) mixWorld).2).st.fds 2 =
      some fileEntry ∧
    fileEntry ≠ nullEntry := by
  decide

/-- C2 amended: provided descriptor 0 is terminal-backed or closed when
the reclaimer runs (so that the null-device open lands on descriptor 0)
and the table fits under the scan bound, the claim holds: every
terminal-backed descriptor outside 0/1/2 is closed, descriptors 0/1/2
all refer to the null device, and every open non-terminal descriptor
other than 0/1/2 is unchanged. -/
theorem C2_descriptor_filter_amended (env : Env) (w : World)
    (hce : ∀ i, env.closeErr i = none) (hoe : env.openNullErr = none)
    (hfree : fdAt w.st.fds 0 = none ∨ ttynameOk w.st.fds 0 = true)
    (hlen : w.st.fds.length ≤ maxfdOf w.st) :
    (_redirectFileDescriptors env w).1 = Except.ok () ∧
    fdAt ((_redirectFileDescriptors env w).2).st.fds 0 = some nullEntry ∧
    fdAt ((_redirectFileDescriptors env w).2).st.fds 1 = some nullEntry ∧
    fdAt ((_redirectFileDescriptors env w).2).st.fds 2 = some nullEntry ∧
    (∀ i, 3 ≤ i → ttynameOk w.st.fds i = true →
      fdAt ((_redirectFileDescriptors env w).2).st.fds i = none) ∧
    (∀ i e, 3 ≤ i → fdAt w.st.fds i = some e → e.isTerminal = false →
      fdAt ((_redirectFileDescriptors env w).2).st.fds i = some e) := by
  obtain ⟨hok, hfds⟩ := redirect_result_fds env w hoe
  rw [hfds]
  dsimp only
  set w1 : World := { w with trace := w.trace ++ [Step.redirectCall] } with hw1
  have hfds1 : w1.st.fds = w.st.fds := rfl
  have hmax1 : maxfdOf w1.st = maxfdOf w.st := rfl
  have ht0 : fdAt (closeLoop env w1).st.fds 0 = none := by
    rcases hfree with h | h
    · rw [closeLoop_skip env w1 0 (ttynameOk_of_closed _ _ h)]
      exact h
    · obtain ⟨e, hfd, _⟩ := ttynameOk_some _ _ h
      have hl := lt_length_of_fdAt_some _ _ _ hfd
      exact closeLoop_closes env w1 0 (hce 0) (by rw [hmax1]; omega) h
  rw [lowestFree_zero _ ht0]
  rw [fdAt_setFd_self]
  rw [fdAt_setFd_ne _ 1 0 _ (by omega), fdAt_setFd_self]
  refine ⟨hok, ?_, ?_, ?_, ?_, ?_⟩
  · rw [fdAt_setFd_ne _ 2 0 _ (by omega), fdAt_setFd_ne _ 1 0 _ (by omega),
      fdAt_setFd_self]
  · rw [fdAt_setFd_ne _ 2 1 _ (by omega), fdAt_setFd_self]
  · rw [fdAt_setFd_self]
  · intro i h3 htty
    rw [fdAt_setFd_ne _ 2 i _ (by omega), fdAt_setFd_ne _ 1 i _ (by omega),
      fdAt_setFd_ne _ 0 i _ (by omega)]
    obtain ⟨e, hfd, _⟩ := ttynameOk_some _ _ htty
    have hl := lt_length_of_fdAt_some _ _ _ hfd
    exact closeLoop_closes env w1 i (hce i) (by rw [hmax1]; omega) htty
  · intro i e h3 hfd hterm
    rw [fdAt_setFd_ne _ 2 i _ (by omega), fdAt_setFd_ne _ 1 i _ (by omega),
      fdAt_setFd_ne _ 0 i _ (by omega)]
    have htty : ttynameOk w1.st.fds i = false := by
      unfold ttynameOk
      rw [hfds1, hfd]
      exact hterm
    rw [closeLoop_skip env w1 i htty]
    exact hfd

/-- C2 amended witness: in the base world (terminals on 0/1/2, a log
file on 3) the reclaimer puts the null device on 0 and keeps the log
file on 3. -/
theorem C2_descriptor_filter_amended_witness :
    fdAt ((_redirectFileDescriptors (cleanEnv noCloseErr) baseWorld).2).st.fds 0 =
      some nullEntry ∧
    fdAt ((_redirectFileDescriptors (cleanEnv noCloseErr) baseWorld).2).st.fds 3 =
      some fileEntry :=
  ⟨(C2_descriptor_filter_amended (cleanEnv noCloseErr) baseWorld (fun _ => rfl) rfl
      (Or.inr (by decide)) (by decide)).2.1,
   (C2_descriptor_filter_amended (cleanEnv noCloseErr) baseWorld (fun _ => rfl) rfl
      (Or.inr (by decide)) (by decide)).2.2.2.2.2 3 fileEntry (by decide)
      (by decide) (by decide)⟩

/-- C3 counterexample: an error arising inside the reclaimer CAN abort
the daemonization: when the final null-device open raises ENOENT,
`daemonize` raises the wrapped daemonization error instead of returning
success. -/
theorem C3_counterexample :
    isReturned (daemonize false
      { cleanEnv noCloseErr with
          openNullErr := some (.osError 2 "No such file or directory") }
      baseWorld) = false ∧
    resultExc (daemonize false
      { cleanEnv noCloseErr with
          openNullErr := some (.osError 2 "No such file or directory") }
      baseWorld) =
      some (wrapTop (.osError 2 "No such file or directory")) := by
  decide

/-- C3 amended: the reclaimer fails silently per descriptor inside its
close loop — whatever exceptions `os.close` raises there are absorbed
and `daemonize` still returns success — but a failure of the final
null-device open in the reclaimer escalates and `daemonize` reports the wrapped
daemonization failure. -/
theorem C3_close_errors_absorbed (w : World) (cf : Nat → Option PyExc)
    (hpos : w.st.osName = "posix") :
    isReturned (daemonize false (cleanEnv cf) w) = true ∧
    (∀ e, resultExc (daemonize false { cleanEnv cf with openNullErr := some e } w) =
      some (wrapTop e)) := by
  constructor
  · simp [daemonize, hpos, daemonizeBody, _fork, os_fork, step, os_setsid,
      signal_ignore_sighup, os_umask, os_chdir, cleanEnv,
      wrapResult_isReturned, finishRedirect_isReturned]
  · intro e
    simp [daemonize, hpos, daemonizeBody, _fork, os_fork, step, os_setsid,
      signal_ignore_sighup, os_umask, os_chdir, cleanEnv, finishRedirect,
      _redirectFileDescriptors, os_open_null, wrapResult, resultExc]

/-- C3 amended witness: even with `os.close` raising EBADF on every
descriptor of the loop, daemonization succeeds. -/
theorem C3_close_errors_absorbed_witness :
    isReturned (daemonize false
      (cleanEnv (fun _ => some (.osError 9 "Bad file descriptor")))
      baseWorld) = true :=
  (C3_close_errors_absorbed baseWorld
    (fun _ => some (.osError 9 "Bad file descriptor")) rfl).1


end Daemon
